import Mathlib

/-!
Verification of the transcript-harvester core: credential rotation and the
quota-retry executor (src/api_key_rotator.py), the short-form classifier
(src/shorts_filter.py), batched detail lookups (src/yt-channel.py),
transcript language fallback and idempotent persistence (src/yt-channel.py,
src/yt-lastweek.py), and filename sanitization (src/sanitize_filename.py).

Embedding conventions: Python dicts with optional fields become structures
with `Option` fields (a `.get(k, d)` becomes `Option.getD`); a Python
exception becomes an `Except`/`Option` result; external collaborators
(the remote API, the transcript library, the file system, `html.unescape`)
become explicit function parameters; the mutable rotator object becomes
explicit state passing on `RotatorState`.
-/

/-- Decides whether the list `n` occurs as a contiguous sublist of the second
argument, mirroring the Python substring test `n in hay` used by
`shorts_filter.py` (hashtag and `/shorts/` checks) and by
`api_key_rotator.py` (the `"quota" in str(e).lower()` check). -/
def listContainsSub (n : List Char) : List Char → Bool
  | [] => n.isEmpty
  | c :: cs => n.isPrefixOf (c :: cs) || listContainsSub n cs

/-- String wrapper for `listContainsSub`: Python `needle in hay`. -/
def containsSub (needle hay : String) : Bool :=
  listContainsSub needle.toList hay.toList

/-- ASCII lower-casing of one character, modelling Python `str.lower` on the
ASCII inputs the code compares (hashtags, `/shorts/`, `"quota"`). -/
def lowerChar (c : Char) : Char :=
  if 'A' ≤ c ∧ c ≤ 'Z' then Char.ofNat (c.toNat + 32) else c

/-- ASCII lower-casing of a string (Python `str.lower`). -/
def lowerStr (s : String) : String :=
  String.mk (s.toList.map lowerChar)

/-- Position just after the first occurrence of the literal `"PT"`, scanning
left to right; `none` when `"PT"` does not occur. This is where the regex
`PT(?:(\d+)H)?(?:(\d+)M)?(?:(\d+)S)?` of `shorts_filter.py` line 23 first
matches: because every group is optional, the pattern matches at the first
`"PT"` of the input and nowhere else matters, and it fails to match at all
exactly when the input has no `"PT"` (then `re.findall(...)[0]` raises
`IndexError`). -/
def findPT : List Char → Option (List Char)
  | [] => none
  | 'P' :: 'T' :: rest => some rest
  | _ :: rest => findPT rest

/-- Numeric value of a digit run (Python `int` on a decimal string). -/
def digitsToNat (ds : List Char) : Nat :=
  ds.foldl (fun acc c => acc * 10 + (c.toNat - 48)) 0

/-- One optional regex group `(?:(\d+)X)?` for marker `X`: if a nonempty
maximal digit run at the current position is immediately followed by the
marker, consume it and return its value; otherwise consume nothing and
return 0 (the Python code maps an empty group to 0 via
`int(v) if v else 0`). -/
def parseComp (marker : Char) (cs : List Char) : Nat × List Char :=
  let ds := cs.takeWhile Char.isDigit
  let rest := cs.dropWhile Char.isDigit
  match ds, rest with
  | [], _ => (0, cs)
  | _ :: _, r :: rs => if r = marker then (digitsToNat ds, rs) else (0, cs)
  | _ :: _, [] => (0, cs)

/-- Total seconds extracted by lines 23-25 of `shorts_filter.py`:
`re.findall(r'PT(?:(\d+)H)?(?:(\d+)M)?(?:(\d+)S)?', duration)[0]` followed by
`hours * 3600 + minutes * 60 + seconds`. `none` models the `IndexError`
raised by `[0]` when the string contains no `"PT"`. -/
def parseDurationSeconds (s : String) : Option Nat :=
  match findPT s.toList with
  | none => none
  | some cs =>
    let (h, cs1) := parseComp 'H' cs
    let (m, cs2) := parseComp 'M' cs1
    let (sec, _) := parseComp 'S' cs2
    some (h * 3600 + m * 60 + sec)

/-- Dimensions of the `"standard"` thumbnail variant as read by
`shorts_filter.py` lines 28-31; either field may be absent in the response. -/
structure ThumbDims where
  height : Option Nat
  width : Option Nat
deriving DecidableEq

/-- Typed view of the `videos.list` response item fields that
`YouTubeShortsFilter.is_short` reads. An absent `contentDetails.duration`
is `duration = none` (the code defaults it to `"PT0S"`); an absent
`snippet.thumbnails.standard` is `thumbStandard = none`; `title`,
`description` and `snippet.resourceId.videoId` default to `""` in the code,
so they are plain strings here with `""` standing for absence. -/
structure VideoData where
  duration : Option String
  thumbStandard : Option ThumbDims
  title : String
  description : String
  videoId : String
deriving DecidableEq

/-- Lines 28-33 of `shorts_filter.py`: vertical iff the `"standard"`
thumbnail exists, its width (default 0) is positive, and
`height / width > 1` with the dict defaults `height -> 0`, `width -> 1`;
over positive integers the float comparison `h / w > 1` is `h > w`. -/
def isVerticalCode (v : VideoData) : Bool :=
  match v.thumbStandard with
  | some t =>
    if t.width.getD 0 > 0 then decide (t.height.getD 0 > t.width.getD 1) else false
  | none => false

/-- Lines 36-41 of `shorts_filter.py`: one of the literal tags occurs in the
lower-cased description or title. -/
def hasShortsTag (v : VideoData) : Bool :=
  ["#shorts", "#short", "#youtubeshorts"].any fun tag =>
    containsSub tag (lowerStr v.description) || containsSub tag (lowerStr v.title)

/-- Lines 44-45 of `shorts_filter.py`: `"/shorts/"` occurs in
`snippet.resourceId.videoId`. -/
def isShortsUrl (v : VideoData) : Bool :=
  containsSub "/shorts/" v.videoId

/-- Body of the `try` block of `YouTubeShortsFilter.is_short` (lines 17-52):
`none` models an exception escaping the block (in this typed embedding the
only exception source is `re.findall(...)[0]` on a duration without
`"PT"`); `some b` is the value the block returns. -/
def is_short_checked (v : VideoData) : Option Bool :=
  match parseDurationSeconds (v.duration.getD "PT0S") with
  | none => none
  | some durationSec =>
    some (decide (durationSec ≤ 60) || isVerticalCode v || hasShortsTag v || isShortsUrl v)

/-- `YouTubeShortsFilter.is_short` with its `except Exception` handler
(lines 54-56), which returns `False`. -/
def is_short (v : VideoData) : Bool :=
  (is_short_checked v).getD false

/-- Verticality rule as the spec words it: a `"standard"` thumbnail variant
exists and its height/width ratio exceeds 1, the ratio taken over ℚ with an
absent dimension read as 0 (so an absent or zero width gives ratio 0, never
vertical). Second definition of the rule, kept separate from
`isVerticalCode` so the classifier can be compared against the spec. -/
def spec_hasVerticalThumb (v : VideoData) : Bool :=
  match v.thumbStandard with
  | some t => decide (((t.height.getD 0 : ℚ) / (t.width.getD 0 : ℚ)) > 1)
  | none => false

/-- Short-form predicate as the spec words it (§4.3, claim C3): parsed
duration at most 60 seconds with an unparseable duration read as 0 seconds,
or a vertical `"standard"` thumbnail, or a shorts hashtag in title or
description, or `/shorts/` in the resource URL. Second definition, following
the spec's words, to be compared with `is_short` from the source. -/
def spec_isShortForm (v : VideoData) : Bool :=
  decide ((parseDurationSeconds (v.duration.getD "PT0S")).getD 0 ≤ 60)
    || spec_hasVerticalThumb v || hasShortsTag v || isShortsUrl v

/-- Characters replaced by `'-'` in `sanitize_filename.py` line 18
(`re.sub(r'[<>:"/\\|?*]', '-', filename)`). -/
def invalidFilenameChars : List Char := ['<', '>', ':', '"', '/', '\\', '|', '?', '*']

/-- Line 18 of `sanitize_filename.py`: every invalid character becomes `'-'`. -/
def replaceInvalid (s : String) : String :=
  String.mk (s.toList.map fun c => if invalidFilenameChars.contains c then '-' else c)

/-- Membership in the strip set of `filename.strip('. ')`. -/
def isDotOrSpace (c : Char) : Bool :=
  c == '.' || c == ' '

/-- Line 21 of `sanitize_filename.py`: Python `strip('. ')`, removing leading
and trailing characters drawn from `{'.', ' '}`. -/
def stripDotSpace (s : String) : String :=
  String.mk (((s.toList.dropWhile isDotOrSpace).reverse.dropWhile isDotOrSpace).reverse)

/-- Lines 24-25 of `sanitize_filename.py`: `filename[:255]` when longer
than 255 characters. -/
def truncate255 (s : String) : String :=
  if s.length > 255 then String.mk (s.toList.take 255) else s

/-- `FilenameSanitizer.sanitize`: HTML-entity decoding, then invalid-character
replacement, then dot/space stripping, then the 255-character cap.
`html.unescape` is Python standard library, external to the repository, so it
is passed in as an opaque string transformer. -/
def sanitize (unescape : String → String) (filename : String) : String :=
  truncate255 (stripDotSpace (replaceInvalid (unescape filename)))

/-- Rotation state owned by `YouTubeAPIKeyRotator` (`api_key_rotator.py`
lines 14-18): the 1-based index of the active key, the number of keys found
in the environment, the retry bound (3 in `__init__`), and the consecutive
retry counter. -/
structure RotatorState where
  currentKeyIndex : Nat
  maxKeys : Nat
  maxRetries : Nat
  retryCount : Nat
deriving DecidableEq

/-- `YouTubeAPIKeyRotator.__init__` given the number of sequential
`API_KEY_i` entries found: `none` models the `ValueError` raised when zero
keys are found, otherwise the state starts at key 1 with `max_retries = 3`
and `retry_count = 0`. -/
def initRotator (maxKeys : Nat) : Option RotatorState :=
  if maxKeys = 0 then none
  else some { currentKeyIndex := 1, maxKeys := maxKeys, maxRetries := 3, retryCount := 0 }

/-- `YouTubeAPIKeyRotator.rotate_key` (lines 50-63), with the self-recursion
made structural on a fuel argument. `initOk i` tells whether
`_initialize_service()` succeeds for key index `i` (it calls the external
`build(...)`). The `Except` error carries the state at the moment the
`ValueError` ("All API keys are invalid or quota exceeded") is raised; on
success the state after `retry_count = 0` is returned. Fuel 0 is unreachable
when the wrapper supplies `maxRetries + 1 - retryCount` and
`retryCount ≤ maxRetries`. -/
def rotateKeyAux (initOk : Nat → Bool) : Nat → RotatorState → Except RotatorState RotatorState
  | 0, s => .error s
  | fuel + 1, s =>
    if s.retryCount ≥ s.maxRetries then
      .error { s with retryCount := 0 }
    else
      let s1 := { s with currentKeyIndex := s.currentKeyIndex % s.maxKeys + 1,
                         retryCount := s.retryCount + 1 }
      if initOk s1.currentKeyIndex then
        .ok { s1 with retryCount := 0 }
      else
        rotateKeyAux initOk fuel s1

/-- `rotate_key` entry point: enough fuel for the recursion to reach the
`retry_count >= max_retries` guard. -/
def rotateKey (initOk : Nat → Bool) (s : RotatorState) : Except RotatorState RotatorState :=
  rotateKeyAux initOk (s.maxRetries + 1 - s.retryCount) s

/-- Python exceptions distinguished by `execute_with_rotation`: `HttpError`
(the only type its `except` clause catches) versus everything else.
`CredentialsExhausted` is the `ValueError` raised by `rotate_key`. -/
inductive PyError where
  | httpError (msg : String)
  | valueError (msg : String)
  | otherError (msg : String)
deriving DecidableEq

deriving instance DecidableEq for Except

/-- Message of the `ValueError` raised by `rotate_key` line 54. -/
def credentialsExhaustedMsg : String := "All API keys are invalid or quota exceeded"

/-- Line 70 of `api_key_rotator.py` together with line 69's `except HttpError`:
the error both is an `HttpError` and has `"quota"` in its lower-cased
message. -/
def isQuotaHttpError : PyError → Bool
  | .httpError msg => containsSub "quota" (lowerStr msg)
  | _ => false

/-- `YouTubeAPIKeyRotator.execute_with_rotation` (lines 65-74), with the
self-recursion made structural on fuel (Python would hit its recursion limit;
fuel 0 models that `RecursionError`). `req` is the outbound
`request.execute()`, whose outcome may depend on the active key, hence on the
rotator state. Results and propagated errors carry the rotator state so the
theorems can observe rotation. -/
def executeWithRotation {α : Type} (initOk : Nat → Bool)
    (req : RotatorState → Except PyError α) :
    Nat → RotatorState → Except (PyError × RotatorState) (α × RotatorState)
  | 0, s => .error (.otherError "RecursionError", s)
  | fuel + 1, s =>
    match req s with
    | .ok v => .ok (v, s)
    | .error e =>
      if isQuotaHttpError e then
        match rotateKey initOk s with
        | .ok s' => executeWithRotation initOk req fuel s'
        | .error s' => .error (.valueError credentialsExhaustedMsg, s')
      else
        .error (e, s)

/-- Operations the spec's CredentialPool contract exposes. `current()` reads
`_get_current_key` without mutation. `rotate` is `rotate_key` with its
re-initialization oracle. `markSuccess` is modelled from the spec:
`markSuccess(): resets retryCount to 0` — no method of `api_key_rotator.py`
implements it (the reset the source performs lives inside `rotate_key`), so
its state effect is taken from the spec's words. -/
inductive PoolOp where
  | currentCred
  | rotate (initOk : Nat → Bool)
  | markSuccess

/-- State effect of one pool operation. A raising `rotate_key` leaves the
Python object in the state it had when the `ValueError` was raised, which is
the state the `Except.error` carries. -/
def applyPoolOp (s : RotatorState) : PoolOp → RotatorState
  | .currentCred => s
  | .rotate initOk =>
    match rotateKey initOk s with
    | .ok s' => s'
    | .error s' => s'
  | .markSuccess => { s with retryCount := 0 }

/-- State after a sequence of pool operations. -/
def runPoolOps (s : RotatorState) (ops : List PoolOp) : RotatorState :=
  ops.foldl applyPoolOp s

/-- A `{"id": ..., "title": ...}` entry of `temp_videos` in
`_get_channel_videos` (`yt-channel.py` lines 96-99). -/
structure VideoRef where
  id : String
  title : String
deriving DecidableEq

/-- `YouTubeChannelTranscriptDownloader._get_video_details_batch`
(`yt-channel.py` lines 62-74). `lookup` is the `videos.list` call issued
through `execute_with_rotation` for the given ids, returning the response
items keyed by id (here an association list). The `except Exception` at
lines 72-74 catches every failure — quota-unrelated `HttpError`s and the
rotator's `CredentialsExhausted` included — and returns the empty dict. -/
def getVideoDetailsBatch
    (lookup : List String → Except PyError (List (String × VideoData)))
    (videoIds : List String) : List (String × VideoData) :=
  match lookup videoIds with
  | .ok items => items
  | .error _ => []

/-- Batch starts of `for i in range(0, len(temp_videos), batch_size)` with
`batch_size = 50` (`yt-channel.py` lines 109-110). -/
def batchStarts (len : Nat) : List Nat :=
  (List.range len).filter fun i => i % 50 == 0

/-- One iteration of the batching loop of `_get_channel_videos`
(`yt-channel.py` lines 110-117): the 50-slice starting at `i` gets one
detail lookup, and a video of the slice is kept when its id is in the
returned details and `shorts_filter.is_short` rejects it. The accumulator
carries the kept videos and the number of lookups issued so far; each
iteration issues exactly one lookup, unconditionally. -/
def batchStep
    (lookup : List String → Except PyError (List (String × VideoData)))
    (tempVideos : List VideoRef) (acc : List VideoRef × Nat) (i : Nat) :
    List VideoRef × Nat :=
  let batch := (tempVideos.drop i).take 50
  let details := getVideoDetailsBatch lookup (batch.map VideoRef.id)
  let kept := batch.filter fun v =>
    match details.lookup v.id with
    | some d => !(is_short d)
    | none => false
  (acc.1 ++ kept, acc.2 + 1)

/-- Whole batching loop of `_get_channel_videos`: one `batchStep` per slice
start, beginning from no kept videos and zero issued lookups. -/
def getChannelVideosBatches
    (lookup : List String → Except PyError (List (String × VideoData)))
    (tempVideos : List VideoRef) : List VideoRef × Nat :=
  (batchStarts tempVideos.length).foldl (batchStep lookup tempVideos) ([], 0)

/-- Language order of the transcript loop in
`YouTubeChannelTranscriptDownloader._download_transcript`
(`yt-channel.py` line 127, likewise `yt-playlist.py` line 91). -/
def ytChannelLangOrder : List String := ["it", "en"]

/-- Language list `yt-lastweek.py` line 103 passes to
`YouTubeTranscriptApi.get_transcripts`. -/
def ytLastweekLangOrder : List String := ["en", "it"]

/-- The `for lang in [...]` / `find_transcript` / `break` loop of
`_download_transcript` (`yt-channel.py` lines 125-132): `avail` maps a
language code to the transcript found for it (`none` models the exception
`find_transcript` raises when no transcript exists in that language); the
first hit wins and a miss moves on to the next language. -/
def findTranscriptLoop (avail : String → Option String) : List String → Option String
  | [] => none
  | lang :: rest =>
    match avail lang with
    | some t => some t
    | none => findTranscriptLoop avail rest

/-- Transcript search of `yt-channel.py` (and `yt-playlist.py`): the loop
over `['it', 'en']`. -/
def channelFindTranscript (avail : String → Option String) : Option String :=
  findTranscriptLoop avail ytChannelLangOrder

/-- Transcript fetch of `yt-lastweek.py` `download_transcript`: the external
`YouTubeTranscriptApi.get_transcripts(..., languages=['en', 'it'])` resolves
the given languages in order and returns the first available transcript, so
it is embedded as the same first-hit loop over `['en', 'it']`. -/
def lastweekFetchTranscript (avail : String → Option String) : Option String :=
  findTranscriptLoop avail ytLastweekLangOrder

/-- Counters held in `self.stats` (`yt-channel.py` lines 23-27). -/
structure DlStats where
  downloaded : Nat
  skipped : Nat
  failed : Nat
deriving DecidableEq

/-- Persistence step of `_download_transcript` (`yt-channel.py` lines
141-154 with the failure branch of lines 159-161): the destination is
`folderPath/sanitize(title).txt`; an existing destination increments
`skipped` and writes nothing; otherwise the text is written and `downloaded`
incremented, unless the write raises (`writeOk = false`), which the
`except Exception` turns into a `failed` increment. The file system is a map
from path to contents. -/
def persistTranscript (unescape : String → String) (fs : String → Option String)
    (stats : DlStats) (folderPath videoTitle text : String) (writeOk : Bool) :
    (String → Option String) × DlStats :=
  let filepath := folderPath ++ "/" ++ (sanitize unescape videoTitle ++ ".txt")
  match fs filepath with
  | some _ => (fs, { stats with skipped := stats.skipped + 1 })
  | none =>
    if writeOk then
      (fun p => if p = filepath then some text else fs p,
        { stats with downloaded := stats.downloaded + 1 })
    else
      (fs, { stats with failed := stats.failed + 1 })


/-- Detail item whose classifier outcome is "not short": five-minute
duration, no vertical thumbnail, no tag, no shorts URL. -/
def c4Stub : VideoData := ⟨some "PT5M0S", none, "t", "d", "v"⟩

/-- 51 candidate videos, so the batching loop makes two slices: 50 and 1. -/
def c4Videos : List VideoRef :=
  (List.range 51).map fun i => ⟨"v" ++ toString i, "t" ++ toString i⟩

/-- Detail lookup that fails with a quota-unrelated `HttpError` on the first
slice (the one holding `"v0"`) and succeeds on any other slice. -/
def c4Lookup : List String → Except PyError (List (String × VideoData)) :=
  fun ids =>
    if ids.contains "v0" then .error (.httpError "backendError")
    else .ok (ids.map fun i => (i, c4Stub))


/-- 300-character name with an interior dot placed so that the 255-character
cap cuts right after it: `sanitize` strips dots before capping, so the cap
exposes a trailing dot. -/
def c9LongInput : String :=
  String.mk (List.replicate 254 'a' ++ '.' :: List.replicate 45 'b')


/-- Validity of a rotator state: the 1-based key index points at one of the
keys and the retry counter stays within its bound. -/
def validPool (s : RotatorState) : Prop :=
  1 ≤ s.currentKeyIndex ∧ s.currentKeyIndex ≤ s.maxKeys ∧ s.retryCount ≤ s.maxRetries

/-- With enough fuel for the guard to be reachable, `rotate_key` leaves
`retry_count = 0` whether it returns or raises: success resets the counter
after re-initialization, the raise resets it just before the `ValueError`. -/
theorem rotateKeyAux_rc (initOk : Nat → Bool) :
    ∀ (fuel : Nat) (s : RotatorState), s.retryCount ≤ s.maxRetries →
      s.maxRetries < s.retryCount + fuel →
      ∀ s', (rotateKeyAux initOk fuel s = .ok s' ∨ rotateKeyAux initOk fuel s = .error s') →
        s'.retryCount = 0 := by
  intro fuel
  induction fuel with
  | zero => intro s h1 h2 s' _; omega
  | succ n ih =>
    intro s h1 h2 s' hres
    simp only [rotateKeyAux] at hres
    by_cases hg : s.retryCount ≥ s.maxRetries
    · rw [if_pos hg] at hres
      rcases hres with h | h
      · exact absurd h (by simp)
      · cases h; rfl
    · rw [if_neg hg] at hres
      by_cases hi : initOk (s.currentKeyIndex % s.maxKeys + 1) = true
      · rw [if_pos hi] at hres
        rcases hres with h | h
        · cases h; rfl
        · exact absurd h (by simp)
      · rw [if_neg hi] at hres
        exact ih _ (by show s.retryCount + 1 ≤ s.maxRetries; omega)
          (by show s.maxRetries < s.retryCount + 1 + n; omega) s' hres

/-- When every re-initialization fails, `rotate_key` always raises. -/
theorem rotateKeyAux_allFail :
    ∀ (fuel : Nat) (s : RotatorState),
      ∃ s', rotateKeyAux (fun _ => false) fuel s = .error s' := by
  intro fuel
  induction fuel with
  | zero => intro s; exact ⟨s, rfl⟩
  | succ n ih =>
    intro s
    simp only [rotateKeyAux]
    by_cases hg : s.retryCount ≥ s.maxRetries
    · rw [if_pos hg]; exact ⟨_, rfl⟩
    · rw [if_neg hg]
      simpa using ih _

/-- Counter facts for the wrapper `rotateKey`, whose fuel always reaches the
guard when the counter starts within its bound. -/
theorem rotateKey_rc (initOk : Nat → Bool) (s : RotatorState)
    (h : s.retryCount ≤ s.maxRetries) :
    ∀ s', (rotateKey initOk s = .ok s' ∨ rotateKey initOk s = .error s') →
      s'.retryCount = 0 :=
  rotateKeyAux_rc initOk _ s h (by omega)

/-- Validity is preserved by every outcome of `rotate_key`: the advanced
index `i % maxKeys + 1` lands back in `[1, maxKeys]`, and the counter is
incremented only while strictly below its bound. -/
theorem rotateKeyAux_valid (initOk : Nat → Bool) :
    ∀ (fuel : Nat) (s : RotatorState), validPool s →
      ∀ s', (rotateKeyAux initOk fuel s = .ok s' ∨ rotateKeyAux initOk fuel s = .error s') →
        validPool s' := by
  intro fuel
  induction fuel with
  | zero =>
    intro s hv s' hres
    rcases hres with h | h
    · exact absurd h (by simp [rotateKeyAux])
    · simp only [rotateKeyAux, Except.error.injEq] at h
      exact h ▸ hv
  | succ n ih =>
    intro s hv s' hres
    obtain ⟨hv1, hv2, hv3⟩ := hv
    have hmod : s.currentKeyIndex % s.maxKeys < s.maxKeys :=
      Nat.mod_lt _ (by omega)
    simp only [rotateKeyAux] at hres
    by_cases hg : s.retryCount ≥ s.maxRetries
    · rw [if_pos hg] at hres
      rcases hres with h | h
      · exact absurd h (by simp)
      · cases h; exact ⟨hv1, hv2, by show (0 : Nat) ≤ s.maxRetries; omega⟩
    · rw [if_neg hg] at hres
      by_cases hi : initOk (s.currentKeyIndex % s.maxKeys + 1) = true
      · rw [if_pos hi] at hres
        rcases hres with h | h
        · cases h
          exact ⟨by show 1 ≤ s.currentKeyIndex % s.maxKeys + 1; omega,
            by show s.currentKeyIndex % s.maxKeys + 1 ≤ s.maxKeys; omega,
            by show (0 : Nat) ≤ s.maxRetries; omega⟩
        · exact absurd h (by simp)
      · rw [if_neg hi] at hres
        exact ih _
          ⟨by show 1 ≤ s.currentKeyIndex % s.maxKeys + 1; omega,
           by show s.currentKeyIndex % s.maxKeys + 1 ≤ s.maxKeys; omega,
           by show s.retryCount + 1 ≤ s.maxRetries; omega⟩ s' hres

/-- Validity is preserved by one pool operation. -/
theorem applyPoolOp_valid (s : RotatorState) (op : PoolOp) (h : validPool s) :
    validPool (applyPoolOp s op) := by
  cases op with
  | currentCred => exact h
  | rotate initOk =>
    simp only [applyPoolOp]
    cases hr : rotateKey initOk s with
    | ok s' => exact rotateKeyAux_valid initOk _ s h s' (Or.inl hr)
    | error s' => exact rotateKeyAux_valid initOk _ s h s' (Or.inr hr)
  | markSuccess => exact ⟨h.1, h.2.1, Nat.zero_le _⟩

/-- Validity is preserved by any sequence of pool operations. -/
theorem runPoolOps_valid (ops : List PoolOp) :
    ∀ s : RotatorState, validPool s → validPool (runPoolOps s ops) := by
  induction ops with
  | nil => intro s h; exact h
  | cons op rest ih => intro s h; exact ih _ (applyPoolOp_valid s op h)

/-- C1 counterexample: pool of 2 keys, `maxRetries = 3`, all client
re-initializations succeeding. Three consecutive rotations — one per quota
failure, with no successful call in between — all return normally with
`retryCount = 0`: the third rotation does not raise `CredentialsExhausted`,
because `rotate_key` resets `retry_count` to 0 after every successful
re-initialization (`api_key_rotator.py` line 61), so consecutive quota
failures never accumulate the counter. -/
theorem rotate_quota_exhaustion_cex :
    rotateKey (fun _ => true) ⟨1, 2, 3, 0⟩ = .ok ⟨2, 2, 3, 0⟩ ∧
    rotateKey (fun _ => true) ⟨2, 2, 3, 0⟩ = .ok ⟨1, 2, 3, 0⟩ ∧
    rotateKey (fun _ => true) ⟨1, 2, 3, 0⟩ = .ok ⟨2, 2, 3, 0⟩ := by decide

/-- C1 amended: for any pool state whose counter is within its bound,
`rotate_key` leaves `retryCount = 0` both when it returns and when it raises
`CredentialsExhausted`; a rotation whose re-initialization succeeds therefore
never carries retries forward, and `CredentialsExhausted` is raised (with
`retryCount = 0` after) exactly on a rotate call whose re-initializations
keep failing until the `maxRetries` bound. -/
theorem rotate_retryCount_amended (initOk : Nat → Bool) (s : RotatorState)
    (h : s.retryCount ≤ s.maxRetries) :
    (∀ s', rotateKey initOk s = .ok s' → s'.retryCount = 0) ∧
    (∀ s', rotateKey initOk s = .error s' → s'.retryCount = 0) ∧
    (∃ s', rotateKey (fun _ => false) s = .error s') :=
  ⟨fun s' hs => rotateKey_rc initOk s h s' (Or.inl hs),
   fun s' hs => rotateKey_rc initOk s h s' (Or.inr hs),
   rotateKeyAux_allFail _ s⟩

/-- C1 amended, instantiated at the fresh 2-key pool. -/
theorem rotate_retryCount_amended_witness :
    (∀ s', rotateKey (fun _ => true) ⟨1, 2, 3, 0⟩ = .ok s' → s'.retryCount = 0) ∧
    (∀ s', rotateKey (fun _ => true) ⟨1, 2, 3, 0⟩ = .error s' → s'.retryCount = 0) ∧
    (∃ s', rotateKey (fun _ => false) ⟨1, 2, 3, 0⟩ = .error s') :=
  rotate_retryCount_amended (fun _ => true) ⟨1, 2, 3, 0⟩ (by decide)

/-- C10: from a constructed pool (any nonzero number of keys), any sequence
of `current()` / `rotate()` / `markSuccess()` operations keeps the 1-based
key index inside `[1, maxKeys]` and the retry counter inside
`[0, maxRetries]` — whether each rotation returns or raises. -/
theorem pool_state_invariant (maxKeys : Nat) (s0 : RotatorState) (ops : List PoolOp)
    (hinit : initRotator maxKeys = some s0) :
    1 ≤ (runPoolOps s0 ops).currentKeyIndex ∧
    (runPoolOps s0 ops).currentKeyIndex ≤ (runPoolOps s0 ops).maxKeys ∧
    (runPoolOps s0 ops).retryCount ≤ (runPoolOps s0 ops).maxRetries := by
  have hv : validPool s0 := by
    unfold initRotator at hinit
    split at hinit
    · exact absurd hinit (by simp)
    · next hk =>
      cases hinit
      exact ⟨le_refl 1, by show 1 ≤ maxKeys; omega, by show (0 : Nat) ≤ 3; omega⟩
  exact runPoolOps_valid ops s0 hv

/-- C10 instantiated: a 2-key pool through a successful rotation, a success
mark, a read, and an exhausting rotation. -/
theorem pool_state_invariant_witness :
    1 ≤ (runPoolOps ⟨1, 2, 3, 0⟩
          [PoolOp.rotate (fun _ => true), PoolOp.markSuccess, PoolOp.currentCred,
           PoolOp.rotate (fun _ => false)]).currentKeyIndex ∧
    (runPoolOps ⟨1, 2, 3, 0⟩
          [PoolOp.rotate (fun _ => true), PoolOp.markSuccess, PoolOp.currentCred,
           PoolOp.rotate (fun _ => false)]).currentKeyIndex ≤
      (runPoolOps ⟨1, 2, 3, 0⟩
          [PoolOp.rotate (fun _ => true), PoolOp.markSuccess, PoolOp.currentCred,
           PoolOp.rotate (fun _ => false)]).maxKeys ∧
    (runPoolOps ⟨1, 2, 3, 0⟩
          [PoolOp.rotate (fun _ => true), PoolOp.markSuccess, PoolOp.currentCred,
           PoolOp.rotate (fun _ => false)]).retryCount ≤
      (runPoolOps ⟨1, 2, 3, 0⟩
          [PoolOp.rotate (fun _ => true), PoolOp.markSuccess, PoolOp.currentCred,
           PoolOp.rotate (fun _ => false)]).maxRetries :=
  pool_state_invariant 2 ⟨1, 2, 3, 0⟩ _ (by decide)

/-- Call that raises a `ValueError` (not an `HttpError`) whose message
contains `"quota"`. -/
def c2Req : RotatorState → Except PyError Unit :=
  fun _ => .error (.valueError "quota exceeded")

/-- C2 counterexample: the call raises an error whose message contains
`"quota"` case-insensitively, yet — because it is not an `HttpError`, the
only type the `except` clause of `execute_with_rotation` catches — the
executor propagates it at once with the rotator state untouched (index still
1; a rotation would have moved it to 2) and never retries. The claim's
"rotate then retry" behavior does not happen. -/
theorem execute_nonhttp_quota_cex :
    executeWithRotation (fun _ => true) c2Req 5 ⟨1, 2, 3, 0⟩
      = .error (.valueError "quota exceeded", ⟨1, 2, 3, 0⟩) ∧
    containsSub "quota" (lowerStr "quota exceeded") = true := by decide

/-- C2 amended: when the call raises, the executor rotates and retries the
same call exactly when the error is an `HttpError` whose message contains
`"quota"` case-insensitively; any other error — a non-`HttpError` even with
"quota" in its message included — propagates immediately with no rotation
and no retry; and the `CredentialsExhausted` `ValueError` raised by a failing
rotation propagates immediately to the caller. -/
theorem execute_rotation_amended {α : Type} (initOk : Nat → Bool)
    (req : RotatorState → Except PyError α) (fuel : Nat) (s : RotatorState)
    (e : PyError) (hreq : req s = .error e) :
    (isQuotaHttpError e = false →
      executeWithRotation initOk req (fuel + 1) s = .error (e, s)) ∧
    (∀ s', isQuotaHttpError e = true → rotateKey initOk s = .ok s' →
      executeWithRotation initOk req (fuel + 1) s = executeWithRotation initOk req fuel s') ∧
    (∀ s', isQuotaHttpError e = true → rotateKey initOk s = .error s' →
      executeWithRotation initOk req (fuel + 1) s
        = .error (.valueError credentialsExhaustedMsg, s')) := by
  refine ⟨fun hq => ?_, fun s' hq hr => ?_, fun s' hq hr => ?_⟩
  · simp [executeWithRotation, hreq, hq]
  · simp [executeWithRotation, hreq, hq, hr]
  · simp [executeWithRotation, hreq, hq, hr]

/-- Call that raises an `HttpError` carrying a quota message. -/
def c2WitReq : RotatorState → Except PyError Unit :=
  fun _ => .error (.httpError "quotaExceeded")

/-- C2 amended, instantiated at a quota-carrying `HttpError` on the fresh
2-key pool. -/
theorem execute_rotation_amended_witness :
    (isQuotaHttpError (.httpError "quotaExceeded") = false →
      executeWithRotation (fun _ => true) c2WitReq 2 ⟨1, 2, 3, 0⟩
        = .error (.httpError "quotaExceeded", ⟨1, 2, 3, 0⟩)) ∧
    (∀ s', isQuotaHttpError (.httpError "quotaExceeded") = true →
      rotateKey (fun _ => true) ⟨1, 2, 3, 0⟩ = .ok s' →
      executeWithRotation (fun _ => true) c2WitReq 2 ⟨1, 2, 3, 0⟩
        = executeWithRotation (fun _ => true) c2WitReq 1 s') ∧
    (∀ s', isQuotaHttpError (.httpError "quotaExceeded") = true →
      rotateKey (fun _ => true) ⟨1, 2, 3, 0⟩ = .error s' →
      executeWithRotation (fun _ => true) c2WitReq 2 ⟨1, 2, 3, 0⟩
        = .error (.valueError credentialsExhaustedMsg, s')) :=
  execute_rotation_amended (fun _ => true) c2WitReq 1 ⟨1, 2, 3, 0⟩
    (.httpError "quotaExceeded") rfl

/-- The code's verticality test agrees with the spec's ratio formulation:
for a positive width the integer comparison `height > width` is the rational
comparison `height / width > 1`, and an absent or zero width makes both
sides false (the code by its `width > 0` guard, the spec by `x / 0 = 0` in
ℚ). -/
theorem isVerticalCode_eq_spec (v : VideoData) :
    isVerticalCode v = spec_hasVerticalThumb v := by
  unfold isVerticalCode spec_hasVerticalThumb
  cases v.thumbStandard with
  | none => rfl
  | some t =>
    cases hwo : t.width with
    | none => simp [hwo]
    | some w =>
      rcases Nat.eq_zero_or_pos w with rfl | hwpos
      · simp [hwo]
      · have h1 : ((t.height.getD 0 : ℚ) / (w : ℚ) > 1) ↔ (t.height.getD 0 > w) := by
          rw [gt_iff_lt, one_lt_div (by exact_mod_cast hwpos)]
          exact Nat.cast_lt
        simp [hwo, hwpos, h1]

/-- Item with an unparseable duration (`"abc"` has no `"PT"`) and a
`#shorts` title. -/
def c3Item : VideoData := ⟨some "abc", none, "#shorts", "", ""⟩

/-- C3 counterexample: for this item the claim's rules hold — the tag rule
outright, and the duration rule too under the spec's
unparseable-defaults-to-0 reading — yet `is_short` returns false, because
`re.findall(...)[0]` raises on a duration without `"PT"` before any other
rule is evaluated and the handler returns `False`. The claimed equivalence
"classify true iff some rule holds" fails here. -/
theorem is_short_rules_cex :
    spec_isShortForm c3Item = true ∧ is_short c3Item = false := by decide

/-- C3 amended: for every item whose duration string parses (the regex
matches, which happens exactly when it contains `"PT"`), `is_short` returns
true iff one of the four spec rules holds: parsed duration at most 60
seconds, vertical `"standard"` thumbnail, shorts hashtag in title or
description, or `/shorts/` in the resource id. -/
theorem is_short_rules_amended (v : VideoData)
    (h : (parseDurationSeconds (v.duration.getD "PT0S")).isSome) :
    is_short v = spec_isShortForm v := by
  obtain ⟨d, hd⟩ := Option.isSome_iff_exists.mp h
  unfold is_short is_short_checked spec_isShortForm
  rw [hd]
  simp only [Option.getD_some]
  rw [isVerticalCode_eq_spec]

/-- C3 amended at the claim's own instances: `PT45S` (classified short, by
the duration rule) and `PT5M0S` (not short: no rule holds). -/
theorem is_short_rules_amended_witness :
    is_short ⟨some "PT45S", none, "t", "d", "v"⟩
      = spec_isShortForm ⟨some "PT45S", none, "t", "d", "v"⟩ ∧
    is_short ⟨some "PT45S", none, "t", "d", "v"⟩ = true ∧
    is_short ⟨some "PT5M0S", none, "t", "d", "v"⟩ = false :=
  ⟨is_short_rules_amended ⟨some "PT45S", none, "t", "d", "v"⟩ (by decide),
   by decide, by decide⟩

/-- C5 counterexample: the duration `"abc"` is unparseable, and the claim
would have it default to 0 seconds and the item classified short-form; the
code instead raises `IndexError` at `re.findall(...)[0]` (no `"PT"` to
match), the handler catches it, and `is_short` returns false. -/
theorem malformed_duration_cex :
    parseDurationSeconds "abc" = none ∧
    is_short ⟨some "abc", none, "", "", ""⟩ = false := by decide

/-- C5 amended: a duration string with no occurrence of `"PT"` makes the
regex lookup raise, so classify returns false; one that contains `"PT"`
parses (absent components default to 0, trailing garbage is ignored), and
whenever the parsed value is at most 60 — in particular 0, the value for
`"PT"` followed by no valid component — the item is classified short-form. -/
theorem malformed_duration_amended (v : VideoData) (dur : String)
    (hdur : v.duration = some dur) :
    (findPT dur.toList = none → is_short v = false) ∧
    (∀ cs, findPT dur.toList = some cs → ∃ n, parseDurationSeconds dur = some n) ∧
    (∀ n, parseDurationSeconds dur = some n → n ≤ 60 → is_short v = true) := by
  refine ⟨fun hpt => ?_, fun cs hcs => ?_, fun n hn hle => ?_⟩
  · unfold is_short is_short_checked
    rw [hdur]
    simp only [Option.getD_some]
    unfold parseDurationSeconds
    rw [hpt]
    rfl
  · unfold parseDurationSeconds
    rw [hcs]
    exact ⟨_, rfl⟩
  · unfold is_short is_short_checked
    rw [hdur]
    simp only [Option.getD_some]
    rw [hn]
    simp [hle]

/-- C5 amended at the unparseable duration `"abc"`. -/
theorem malformed_duration_amended_witness :
    (findPT "abc".toList = none → is_short ⟨some "abc", none, "", "", ""⟩ = false) ∧
    (∀ cs, findPT "abc".toList = some cs → ∃ n, parseDurationSeconds "abc" = some n) ∧
    (∀ n, parseDurationSeconds "abc" = some n → n ≤ 60 →
      is_short ⟨some "abc", none, "", "", ""⟩ = true) :=
  malformed_duration_amended ⟨some "abc", none, "", "", ""⟩ "abc" rfl

/-- C6: whenever evaluation of the classification rules raises — `none` from
the `try` body — `is_short` catches it and returns false; and when the body
returns a value, `is_short` returns that value unchanged. Being a total
function, `is_short` never propagates an exception to its caller. -/
theorem is_short_exception_false (v : VideoData) :
    (is_short_checked v = none → is_short v = false) ∧
    (∀ b, is_short_checked v = some b → is_short v = b) := by
  refine ⟨fun h => ?_, fun b h => ?_⟩ <;> unfold is_short <;> rw [h] <;> rfl

/-- C6 at an item (`"zzz"` duration) whose rule evaluation raises. -/
theorem is_short_exception_false_witness :
    (is_short_checked ⟨some "zzz", none, "", "", ""⟩ = none →
      is_short ⟨some "zzz", none, "", "", ""⟩ = false) ∧
    (∀ b, is_short_checked ⟨some "zzz", none, "", "", ""⟩ = some b →
      is_short ⟨some "zzz", none, "", "", ""⟩ = b) :=
  is_short_exception_false ⟨some "zzz", none, "", "", ""⟩

/-- Each batching iteration adds exactly one to the issued-lookup count, so
folding over the slice starts issues one lookup per slice. -/
theorem batchStep_count
    (lookup : List String → Except PyError (List (String × VideoData)))
    (tempVideos : List VideoRef) :
    ∀ (starts : List Nat) (acc : List VideoRef × Nat),
      (starts.foldl (batchStep lookup tempVideos) acc).2 = acc.2 + starts.length := by
  intro starts
  induction starts with
  | nil => intro acc; simp
  | cons i rest ih =>
    intro acc
    rw [List.foldl_cons, ih]
    have hstep : (batchStep lookup tempVideos acc i).2 = acc.2 + 1 := rfl
    rw [hstep, List.length_cons]
    omega

/-- C4 counterexample: 51 ids partition into two slices. The first slice's
detail lookup fails with a quota-unrelated `HttpError`, yet
`_get_channel_videos` returns normally — the `except Exception` of
`_get_video_details_batch` swallows the failure into an empty dict — the
second slice's lookup IS issued (two lookups are counted) and its video is
kept. Nothing propagates and the later chunk is not skipped, against the
claim. -/
theorem batch_abort_cex :
    getChannelVideosBatches c4Lookup c4Videos = ([⟨"v50", "t50"⟩], 2) ∧
    c4Lookup (((c4Videos.drop 0).take 50).map VideoRef.id)
      = .error (.httpError "backendError") := by decide

/-- C4 amended: a chunk-level failure of any kind is caught inside the chunk
lookup, which then contributes an empty detail mapping (dropping that
chunk's videos), and the loop still issues one lookup for every chunk —
partial-success continuation rather than propagation. -/
theorem batch_continuation_amended
    (lookup : List String → Except PyError (List (String × VideoData)))
    (ids : List String) (e : PyError) (he : lookup ids = .error e)
    (tempVideos : List VideoRef) :
    getVideoDetailsBatch lookup ids = [] ∧
    (getChannelVideosBatches lookup tempVideos).2
      = (batchStarts tempVideos.length).length := by
  constructor
  · simp only [getVideoDetailsBatch, he]
  · unfold getChannelVideosBatches
    rw [batchStep_count]
    simp

/-- C4 amended at the two-slice run with the failing first slice. -/
theorem batch_continuation_amended_witness :
    getVideoDetailsBatch c4Lookup ["v0"] = [] ∧
    (getChannelVideosBatches c4Lookup c4Videos).2
      = (batchStarts c4Videos.length).length :=
  batch_continuation_amended c4Lookup ["v0"] (.httpError "backendError") (by decide) c4Videos

/-- Transcript availability with distinct texts in both languages. -/
def c7Avail : String → Option String :=
  fun l => if l = "it" then some "testo" else if l = "en" then some "text" else none

/-- C7 counterexample: with transcripts available in both languages, the
claimed `[it, en]` order would fetch the Italian text, but
`yt-lastweek.py`'s `download_transcript` requests `['en', 'it']` and fetches
the English one — the two cited call sites do not share the claimed fixed
order. -/
theorem language_order_cex :
    lastweekFetchTranscript c7Avail = some "text" ∧
    findTranscriptLoop c7Avail ["it", "en"] = some "testo" ∧
    ytLastweekLangOrder ≠ ytChannelLangOrder := by decide

/-- C7 amended: the channel (and playlist) downloader iterates `[it, en]`
and returns the first language with a transcript, signalling unavailability
when neither has one; the last-week downloader instead requests `[en, it]`,
with the same first-hit semantics in that reversed order. -/
theorem language_order_amended (avail : String → Option String) :
    channelFindTranscript avail
      = (match avail "it" with | some t => some t | none => avail "en") ∧
    lastweekFetchTranscript avail
      = (match avail "en" with | some t => some t | none => avail "it") := by
  constructor
  · show findTranscriptLoop avail ["it", "en"] = _
    cases hit : avail "it" with
    | some t => simp [findTranscriptLoop, hit]
    | none => cases hen : avail "en" <;> simp [findTranscriptLoop, hit, hen]
  · show findTranscriptLoop avail ["en", "it"] = _
    cases hen : avail "en" with
    | some t => simp [findTranscriptLoop, hen]
    | none => cases hit : avail "it" <;> simp [findTranscriptLoop, hen, hit]

/-- C8: when the destination `folder/sanitize(title).txt` already holds a
file, the persistence step increments only the skip counter and returns the
file system unchanged — no write, no overwrite, `downloaded` and `failed`
untouched. -/
theorem persist_skip_on_exists (unescape : String → String)
    (fs : String → Option String) (stats : DlStats)
    (folderPath videoTitle text : String) (writeOk : Bool) (old : String)
    (h : fs (folderPath ++ "/" ++ (sanitize unescape videoTitle ++ ".txt")) = some old) :
    persistTranscript unescape fs stats folderPath videoTitle text writeOk
      = (fs, { stats with skipped := stats.skipped + 1 }) := by
  simp only [persistTranscript]
  rw [h]

/-- File system holding exactly the destination the witness writes to. -/
def c8Fs : String → Option String :=
  fun p => if p = "f/My Title.txt" then some "old" else none

/-- C8 at a concrete pre-existing destination. -/
theorem persist_skip_on_exists_witness :
    persistTranscript id c8Fs ⟨0, 0, 0⟩ "f" "My Title" "new" true
      = (c8Fs, { downloaded := 0, skipped := 1, failed := 0 }) :=
  persist_skip_on_exists id c8Fs ⟨0, 0, 0⟩ "f" "My Title" "new" true "old" (by decide)

/-- The head surviving a `dropWhile` fails the dropped predicate. -/
theorem head_dropWhile_false (p : Char → Bool) :
    ∀ (l : List Char) (c : Char), (l.dropWhile p).head? = some c → p c = false := by
  intro l
  induction l with
  | nil => intro c h; simp [List.dropWhile] at h
  | cons a rest ih =>
    intro c h
    rw [List.dropWhile_cons] at h
    cases hp : p a with
    | true => rw [hp] at h; simp only [if_true] at h; exact ih c h
    | false =>
      rw [hp] at h
      simp at h
      subst h
      exact hp

/-- A nonempty prefix shares its head with the longer list. -/
theorem head?_of_isPrefix {l₁ l₂ : List Char} (h : l₁ <+: l₂) {c : Char}
    (hc : l₁.head? = some c) : l₂.head? = some c := by
  obtain ⟨t, rfl⟩ := h
  rw [List.head?_append, hc]
  rfl

/-- Output characters of `replaceInvalid` are never in the invalid set:
each is either the replacement `'-'` or an input character that was not
invalid. -/
theorem mem_replaceInvalid (t : String) (c : Char)
    (h : c ∈ (replaceInvalid t).toList) : invalidFilenameChars.contains c = false := by
  have h' : c ∈ t.toList.map
      (fun x => if invalidFilenameChars.contains x then '-' else x) := h
  rw [List.mem_map] at h'
  obtain ⟨a, _, hfa⟩ := h'
  cases hca : invalidFilenameChars.contains a with
  | true => rw [hca] at hfa; simp only [if_true] at hfa; subst hfa; decide
  | false => rw [hca] at hfa; simp only [Bool.false_eq_true, if_false] at hfa; subst hfa; exact hca

/-- Truncation only removes characters. -/
theorem truncate255_toList_mem (t : String) (c : Char)
    (h : c ∈ (truncate255 t).toList) : c ∈ t.toList := by
  unfold truncate255 at h
  by_cases hl : t.length > 255
  · rw [if_pos hl] at h
    have h' : c ∈ t.toList.take 255 := h
    exact (List.take_sublist 255 t.toList).subset h'
  · rw [if_neg hl] at h
    exact h

/-- Truncation keeps the head. -/
theorem truncate255_head (t : String) (c : Char)
    (h : (truncate255 t).toList.head? = some c) : t.toList.head? = some c := by
  unfold truncate255 at h
  by_cases hl : t.length > 255
  · rw [if_pos hl] at h
    have h' : (t.toList.take 255).head? = some c := h
    cases hto : t.toList with
    | nil => rw [hto] at h'; simp at h'
    | cons a rest =>
      rw [hto, show (255 : Nat) = 254 + 1 from rfl, List.take_succ_cons] at h'
      simp only [List.head?_cons, Option.some.injEq] at h'
      simp [h']
  · rw [if_neg hl] at h
    exact h

/-- Truncation caps the length at 255. -/
theorem truncate255_length (t : String) : (truncate255 t).length ≤ 255 := by
  unfold truncate255
  by_cases hl : t.length > 255
  · rw [if_pos hl]
    have he : (String.mk (t.toList.take 255)).length = (t.toList.take 255).length := rfl
    rw [he, List.length_take]
    exact Nat.min_le_left 255 _
  · rw [if_neg hl]
    omega

/-- Truncation is the identity on strings within the cap. -/
theorem truncate255_of_le (t : String) (h : t.length ≤ 255) : truncate255 t = t := by
  unfold truncate255
  rw [if_neg (by omega)]

/-- The stripped string never begins with a dot or space. -/
theorem stripDotSpace_head (t : String) (c : Char)
    (h : (stripDotSpace t).toList.head? = some c) : isDotOrSpace c = false := by
  have h1 : ((t.toList.dropWhile isDotOrSpace).reverse.dropWhile
      isDotOrSpace).reverse.head? = some c := h
  have hpre : ((t.toList.dropWhile isDotOrSpace).reverse.dropWhile isDotOrSpace).reverse
      <+: (t.toList.dropWhile isDotOrSpace) := by
    have hsuf := List.dropWhile_suffix
      (l := (t.toList.dropWhile isDotOrSpace).reverse) isDotOrSpace
    have hrev := List.reverse_prefix.mpr hsuf
    rwa [List.reverse_reverse] at hrev
  exact head_dropWhile_false isDotOrSpace t.toList c (head?_of_isPrefix hpre h1)

/-- The stripped string never ends with a dot or space. -/
theorem stripDotSpace_getLast (t : String) (c : Char)
    (h : (stripDotSpace t).toList.getLast? = some c) : isDotOrSpace c = false := by
  have h1 : ((t.toList.dropWhile isDotOrSpace).reverse.dropWhile
      isDotOrSpace).reverse.getLast? = some c := h
  rw [List.getLast?_eq_head?_reverse, List.reverse_reverse] at h1
  exact head_dropWhile_false isDotOrSpace (t.toList.dropWhile isDotOrSpace).reverse c h1

/-- Stripping only removes characters. -/
theorem stripDotSpace_mem (t : String) (c : Char)
    (h : c ∈ (stripDotSpace t).toList) : c ∈ t.toList := by
  have h1 : c ∈ ((t.toList.dropWhile isDotOrSpace).reverse.dropWhile
      isDotOrSpace).reverse := h
  rw [List.mem_reverse] at h1
  have h2 := (List.dropWhile_sublist isDotOrSpace).subset h1
  rw [List.mem_reverse] at h2
  exact (List.dropWhile_sublist isDotOrSpace).subset h2

set_option maxRecDepth 4000 in
/-- C9 counterexample: a 300-character name with no invalid characters and no
surrounding dots or spaces, whose 255th character is a dot. `sanitize`
strips dots and spaces before applying the 255-character cap
(`sanitize_filename.py` lines 21 and 24-25), so the cap cuts right after
the interior dot and the result ends in `'.'` — against the claim that no
result has a trailing dot. -/
theorem sanitize_truncation_cex :
    (sanitize id c9LongInput).toList.getLast? = some '.' ∧
    (sanitize id c9LongInput).length = 255 := by decide

/-- C9 amended: for every input (and any entity decoder), the result of
`sanitize` contains no character of `<>:"/\|?*`, never begins with a dot or
space, is at most 255 characters long, and — whenever the stripped string is
within the 255-character cap, so no truncation happens — never ends with a
dot or space either. Truncation of longer names can expose a trailing dot
or space. -/
theorem sanitize_amended (unescape : String → String) (s : String) :
    (∀ c ∈ (sanitize unescape s).toList, invalidFilenameChars.contains c = false) ∧
    (∀ c, (sanitize unescape s).toList.head? = some c → isDotOrSpace c = false) ∧
    ((stripDotSpace (replaceInvalid (unescape s))).length ≤ 255 →
      ∀ c, (sanitize unescape s).toList.getLast? = some c → isDotOrSpace c = false) ∧
    (sanitize unescape s).length ≤ 255 := by
  refine ⟨fun c hc => ?_, fun c hc => ?_, fun hlen c hc => ?_, ?_⟩
  · exact mem_replaceInvalid (unescape s) c
      (stripDotSpace_mem _ c (truncate255_toList_mem _ c hc))
  · exact stripDotSpace_head _ c (truncate255_head _ c hc)
  · rw [show sanitize unescape s = stripDotSpace (replaceInvalid (unescape s)) from
      truncate255_of_le _ hlen] at hc
    exact stripDotSpace_getLast _ c hc
  · exact truncate255_length _

/-- C9 amended at the spec's own example `" My: Title? "` (with the identity
decoder: the example has no HTML entities), together with the example's
concrete value. -/
theorem sanitize_amended_witness :
    ((∀ c ∈ (sanitize id " My: Title? ").toList, invalidFilenameChars.contains c = false) ∧
      (∀ c, (sanitize id " My: Title? ").toList.head? = some c → isDotOrSpace c = false) ∧
      ((stripDotSpace (replaceInvalid (id " My: Title? "))).length ≤ 255 →
        ∀ c, (sanitize id " My: Title? ").toList.getLast? = some c → isDotOrSpace c = false) ∧
      (sanitize id " My: Title? ").length ≤ 255) ∧
    sanitize id " My: Title? " = "My- Title-" :=
  ⟨sanitize_amended id " My: Title? ", by decide⟩

